import Mathlib

/-!
Verification of the linode/ai-operators pipeline and agent-operator subsystems.

Each component of the Python source is shallowly embedded as executable Lean
definitions; theorems at the end of the file settle the specification claims
against these definitions.  Machine-level concerns (event loop, HTTP transport,
actual file descriptors) are modelled by explicit state passing: the local
filesystem is an association list from paths to byte contents, cluster reads
are passed in as values or call outcomes, and Python exceptions become
`Except` results.
-/

namespace Py

/-- Python `pat in s` (substring test) on character lists:
true iff `pat` occurs contiguously inside `l`. -/
def containsSeq (pat : List Char) : List Char → Bool
  | [] => pat.isEmpty
  | l@(_ :: rest) => pat.isPrefixOf l || containsSeq pat rest

/-- Python `pat in s` on strings. -/
def pyIn (pat s : String) : Bool := containsSeq pat.toList s.toList

/-- Python `s.startswith(pat)`. -/
def pyStartsWith (s pat : String) : Bool := pat.toList.isPrefixOf s.toList

/-- Python `s.endswith(pat)`. -/
def pyEndsWith (s pat : String) : Bool := pat.toList.isSuffixOf s.toList

/-- Python `s.replace("-", "_")` (single-character replacement). -/
def replaceDashUnderscore (s : String) : String :=
  ⟨s.toList.map (fun c => if c = '-' then '_' else c)⟩

/-- Split a character list at `/` separators, keeping empty segments,
as Python `s.split("/")` does. -/
def segmentsOf : List Char → List (List Char)
  | [] => [[]]
  | c :: rest =>
    if c = '/' then
      [] :: segmentsOf rest
    else
      match segmentsOf rest with
      | [] => [[c]]
      | seg :: segs => (c :: seg) :: segs

/-- Split a string at `/` separators (the path-joining behaviour of
`pathlib.Path./` for names containing separators). -/
def pySplitSlash (s : String) : List String := (segmentsOf s.toList).map (fun l => ⟨l⟩)

/-- Python `str.isnumeric` followed by `int(...)` on ASCII input: succeeds
exactly on non-empty digit strings. -/
def digitsToNatAux (acc : Nat) : List Char → Option Nat
  | [] => some acc
  | c :: rest => if c.isDigit then digitsToNatAux (acc * 10 + (c.toNat - 48)) rest else none

/-- Parse a non-empty all-digit string as a number; `none` otherwise. -/
def pyParseNat (s : String) : Option Nat :=
  match s.toList with
  | [] => none
  | l => digitsToNatAux 0 l

/-- First-match lookup in an association list (Python `dict.get`). -/
def getKey {κ α : Type} [DecidableEq κ] (k : κ) : List (κ × α) → Option α
  | [] => none
  | (q, v) :: rest => if q = k then some v else getKey k rest

/-- Update-or-append for an association list (Python `dict[k] = v`; an
existing key keeps its position, a new key is appended, as in Python dicts). -/
def setKey {κ α : Type} [DecidableEq κ] (k : κ) (v : α) : List (κ × α) → List (κ × α)
  | [] => [(k, v)]
  | (q, w) :: rest => if q = k then (k, v) :: rest else (q, w) :: setKey k v rest

end Py

namespace MlPipelines

open Py

/-- File contents, as byte values. -/
abbrev Bytes := List Nat

/-- A filesystem path, as a list of segments (the denotation of a
`pathlib.Path`). -/
abbrev FPath := List String

/-- The local filesystem: association of paths to regular-file contents. -/
abbrev FileSystem := List (FPath × Bytes)

/-- From `src/ml_operator/pipelines/downloader.py`, `PipelineDownloadConfig`.
The connection-pool fields (`timeout`, `max_connections`,
`max_connections_per_host`) configure the HTTP session only and are omitted
from the model. -/
structure PipelineDownloadConfig where
  local_path : FPath
  max_size : Nat := 32 * 1024 * 1024
  chunk_size : Nat := 8192
deriving DecidableEq

/-- Errors surfacing from the downloader: `SizeExceededException`,
`UnexpectedResponseException`, the `aiohttp` error raised by
`response.raise_for_status()` on a 4xx/5xx status, and the
`zipfile.BadZipFile` that `ZipFile` raises when handed the write-only
temporary file of the zip path. -/
inductive DownloadError where
  | sizeExceeded (message : String)
  | unexpectedResponse (message : String) (status_code : Nat)
  | httpStatusError (status : Nat)
  | badZipFile (message : String)
deriving DecidableEq

/-- From `downloader.py`, `PipelineFileResponse`.  The `ETag` and
`Last-Modified` echoes may be absent (`headers.get` returns `None`). -/
structure PipelineFileResponse where
  file_paths : List FPath
  etag : Option String
  last_modified : Option String
deriving DecidableEq

/-- An HTTP response as consumed by the downloader.  `chunks` is the byte
stream as delivered by `response.content.iter_chunked(chunk_size)`. -/
structure ClientResponse where
  status : Nat
  content_type : String
  content_disposition_filename : Option String
  content_length : Option String
  etag : Option String
  last_modified : Option String
  chunks : List Bytes
deriving DecidableEq

/-- From `downloader.py` lines 42-48, `_get_request_headers`.  Python
truthiness: `None` and `""` both skip the header. -/
def get_request_headers (etag last_modified : Option String) : List (String × String) :=
  (match etag with
   | some s => if s = "" then [] else [("If-None-Match", s)]
   | none => []) ++
  (match last_modified with
   | some s => if s = "" then [] else [("If-Modified-Since", s)]
   | none => [])

/-- From `downloader.py` lines 91-103, `PipelineDownloader._verify_content_length`,
applied to the `Content-Length` header value.  `str.isnumeric` followed by
`int(...)` is modelled by `String.toNat?` (succeeds exactly on non-empty digit
strings). -/
def verify_content_length (cfg : PipelineDownloadConfig) (content_length : Option String) :
    Except DownloadError (Option Nat) :=
  match content_length with
  | none => .ok none
  | some s =>
    if s = "" then .ok none
    else
      match pyParseNat s with
      | some n =>
        if n > cfg.max_size then
          .error (.sizeExceeded
            ("Reported file size " ++ toString n ++ " exceeds limit (" ++
              toString cfg.max_size ++ ")."))
        else .ok (some n)
      | none => .ok none

/-- The filter from `downloader.py` lines 53-57: a zip member is kept iff its
name neither starts with `/` nor contains `..` (Python substring test
`".." in name`), and ends in `.yaml`. -/
def zip_member_valid (name : String) : Bool :=
  !(pyStartsWith name "/" || pyIn ".." name) && pyEndsWith name ".yaml"

/-- `path_prefix / name` for an archive member name (slashes inside the
member name become path separators). -/
def memberPath (baseDir : FPath) (name : String) : FPath :=
  baseDir ++ pySplitSlash name

/-- From `downloader.py` lines 51-59, `_extract_files`, as a function of the
archive's member list: filter the members, extract the kept ones below
`baseDir`, and return their paths in member-list order.  Note: in this
program the function never receives a readable archive — its only caller
(`_process_response`, line 113) hands it the temporary file opened `"wb"`
(write-only), and `ZipFile(buffer)` raises
`zipfile.BadZipFile("File is not a zip file")` before any member list can be
read.  The definition models the member logic these lines express, were the
buffer readable. -/
def extract_files (baseDir : FPath) (entries : List (String × Bytes)) (fs : FileSystem) :
    List FPath × FileSystem :=
  let valid := entries.filter (fun e => zip_member_valid e.1)
  (valid.map (fun e => memberPath baseDir e.1),
   valid.foldl (fun acc e => setKey (memberPath baseDir e.1) e.2 acc) fs)

/-- The streaming loop of `_process_response` lines 121-127: consume chunks,
tracking the cumulative byte count; a chunk that would push the total above
`max` is not written and stops the loop with the exceeded flag set.  Returns
the bytes written so far and whether the size limit was hit. -/
def writeLoop (max : Nat) : Nat → Bytes → List Bytes → Bytes × Bool
  | _, acc, [] => (acc, false)
  | total, acc, c :: rest =>
    if total + c.length > max then (acc, true)
    else writeLoop max (total + c.length) (acc ++ c) rest

/-- The target path of a non-zip response (lines 115-118): the
`Content-Disposition` filename when present and non-empty, else
`pipeline.yaml`, under the per-name directory. -/
def nonZipTarget (baseDir : FPath) (resp : ClientResponse) : FPath :=
  match resp.content_disposition_filename with
  | some f => if f = "" then baseDir ++ ["pipeline.yaml"] else baseDir ++ pySplitSlash f
  | none => baseDir ++ ["pipeline.yaml"]

/-- From `downloader.py` lines 105-137, `PipelineDownloader._process_response`.
For a zip body the bytes go to an anonymous temporary file opened
`tempfile.TemporaryFile("wb")` — write-only, deleted on close, hence never
part of the filesystem model; when the stream stays within the size limit,
`_extract_files` then calls `ZipFile` on that write-only buffer, which
cannot read it back and raises `zipfile.BadZipFile("File is not a zip
file")` for every zip body (verified against CPython's `zipfile`: the
`read()` of the end-of-central-directory probe raises
`io.UnsupportedOperation`, an `OSError`, which `_RealGetContents` converts to
`BadZipFile`) — so no member is ever extracted and the exception propagates.
For any other body the bytes go directly to the target path, whose partial
content the incremental `file.write(chunk)` calls leave on disk when the
loop raises.  Returns the downloader result together with the filesystem
after the call. -/
def process_response (cfg : PipelineDownloadConfig) (resp : ClientResponse)
    (baseDir : FPath) (fs : FileSystem) :
    Except DownloadError PipelineFileResponse × FileSystem :=
  match verify_content_length cfg resp.content_length with
  | .error e => (.error e, fs)
  | .ok _ =>
    if pyEndsWith resp.content_type "zip" then
      let r := writeLoop cfg.max_size 0 [] resp.chunks
      if r.2 then (.error (.sizeExceeded
          ("Processed file size exceeds limit (" ++ toString cfg.max_size ++ ").")), fs)
      else (.error (.badZipFile "File is not a zip file"), fs)
    else
      let target := nonZipTarget baseDir resp
      let r := writeLoop cfg.max_size 0 [] resp.chunks
      if r.2 then (.error (.sizeExceeded
          ("Processed file size exceeds limit (" ++ toString cfg.max_size ++ ").")),
        setKey target r.1 fs)
      else (.ok ⟨[target], resp.etag, resp.last_modified⟩, setKey target r.1 fs)

/-- From `downloader.py` lines 139-168, `PipelineDownloader.get_pipeline_files`,
given the response the server produced for the request.
`response.raise_for_status()` turns any 4xx/5xx into an `aiohttp` error; 304
yields `(False, None)`; 200 streams the body below `local_path/name`
(directory creation is not part of the file map); any other status raises
`UnexpectedResponseException`. -/
def get_pipeline_files (cfg : PipelineDownloadConfig) (name : String)
    (resp : ClientResponse) (fs : FileSystem) :
    Except DownloadError (Bool × Option PipelineFileResponse) × FileSystem :=
  if resp.status ≥ 400 then (.error (.httpStatusError resp.status), fs)
  else if resp.status = 304 then (.ok (false, none), fs)
  else if resp.status = 200 then
    match process_response cfg resp (cfg.local_path ++ [name]) fs with
    | (.ok r, fs1) => (.ok (true, some r), fs1)
    | (.error e, fs1) => (.error e, fs1)
  else (.error (.unexpectedResponse "Unexpected status code returned in response" resp.status), fs)

/-- Total size of a streamed body. -/
def totalLen (chunks : List Bytes) : Nat := (chunks.map List.length).sum

/-- Does an expression evaluate to a raised `SizeExceededException`? -/
def raisedSizeExceeded {α : Type} : Except DownloadError α → Bool
  | .error (.sizeExceeded _) => true
  | _ => false

/-- The two outcomes `get_pipeline_files` returns without raising:
`(False, None)` on 304, `(True, response)` on 200 (lines 157-164). -/
inductive FetchOutcome where
  | notModified
  | modified (response : PipelineFileResponse)
deriving DecidableEq

/-- Observable effects of one `PipelineUpdater.update_source` call:
`_upload_pipeline(file_path, version)` submissions and the per-source
response-cache replacement, in program order.  (The pipeline-name extraction
inside `_upload_pipeline` only shapes the version label of the submission and
is not needed by any claim; the upload event records its path and version
arguments.) -/
inductive UpdaterEvent where
  | upload (package_path : FPath) (version : String)
  | cacheWrite (source_name : String) (response : PipelineFileResponse)
deriving DecidableEq

/-- From `src/ml_operator/pipelines/config.py`: the ml-operator source entry
(no auth fields in this variant). -/
structure PipelineSourceConfig where
  url : String
  version : Option String
deriving DecidableEq

/-- From `src/ml_operator/pipelines/updater.py` lines 40-62,
`PipelineUpdater.update_source`: the cached validators of the source are
passed to the downloader; only a modified fetch uploads the produced files
and then replaces the cache entry.  `fetch` abstracts
`downloader.get_pipeline_files` for this call: it maps the optionally
supplied `(etag, last_modified)` validators to the outcome the downloader
returned.  Returns the emitted events and the new response cache. -/
def update_source (cache : List (String × PipelineFileResponse)) (name : String)
    (config : PipelineSourceConfig)
    (fetch : Option (Option String × Option String) → FetchOutcome) :
    List UpdaterEvent × List (String × PipelineFileResponse) :=
  let kwargs := (getKey name cache).map (fun r => (r.etag, r.last_modified))
  match fetch kwargs with
  | .notModified => ([], cache)
  | .modified response =>
    let version := config.version.getD "1.0.0"
    (response.file_paths.map (fun p => UpdaterEvent.upload p version) ++
       [UpdaterEvent.cacheWrite name response],
     setKey name response cache)

end MlPipelines

namespace KbPipelines

open Py

/-- From `src/ai_operators/kb_operator/pipelines/config.py`,
`PipelineSourceAuth`. -/
inductive PipelineSourceAuth where
  | none
  | basic
  | bearer
deriving DecidableEq

/-- From `config.py` lines 29-38: the resolved in-operator form.  The Python
`auth_token` default is `None`. -/
structure PipelineSourceConfig where
  url : String
  version : Option String := Option.none
  auth_type : PipelineSourceAuth := .none
  auth_token : Option String := Option.none
deriving DecidableEq

/-- From `config.py` lines 41-55: the ConfigMap (stored) form. -/
structure StoredPipelineSourceConfig where
  url : String
  version : Option String := Option.none
  auth_type : PipelineSourceAuth := .none
  auth_secret_name : Option String := Option.none
  auth_secret_key : Option String := Option.none
deriving DecidableEq

/-- The cluster's Secret objects in the loader's namespace, keyed by secret
name; values carry the key-to-value data mapping.  Values are modelled
post-decoding (the loader base64-decodes each value; the transport encoding
is elided). -/
abbrev ClusterSecrets := List (String × List (String × String))

/-- From `config.py` lines 83-104, `PipelineConfigLoader._load_secrets`: read
each requested secret once; a missing secret is silently skipped. -/
def load_secrets (cluster : ClusterSecrets) (secret_names : List String) :
    List (String × List (String × String)) :=
  secret_names.filterMap (fun n => (getKey n cluster).map (fun d => (n, d)))

/-- The secret-name set of `_update_config_items` lines 109-114: names of
entries with `auth_type != NONE` and a truthy `auth_secret_name`.  (The Python
set also deduplicates; duplicates do not change any lookup.) -/
def secret_names (updated_configs : List (String × StoredPipelineSourceConfig)) :
    List String :=
  updated_configs.filterMap (fun e =>
    if e.2.auth_type ≠ .none then
      match e.2.auth_secret_name with
      | some sn => if sn = "" then Option.none else some sn
      | Option.none => Option.none
    else Option.none)

/-- The per-entry body of `_update_config_items` lines 116-146: `none` means
the entry is skipped (logged), `some` the snapshot value written for it.
Python truthiness is modelled throughout: `None` and `""` (and an empty
secret data mapping) are falsy. -/
def resolve_entry (secrets : List (String × List (String × String)))
    (sc : StoredPipelineSourceConfig) : Option PipelineSourceConfig :=
  if sc.auth_type = PipelineSourceAuth.none then
    some ⟨sc.url, sc.version, sc.auth_type, Option.none⟩
  else
    match sc.auth_secret_name, sc.auth_secret_key with
    | some sn, some sk =>
      if sn = "" ∨ sk = "" then Option.none
      else
        match getKey sn secrets with
        | some secret =>
          if secret = [] then Option.none
          else
            match getKey sk secret with
            | some secret_value =>
              if secret_value = "" then Option.none
              else some ⟨sc.url, sc.version, sc.auth_type, some secret_value⟩
            | Option.none => Option.none
        | Option.none => Option.none
    | _, _ => Option.none

/-- The active config snapshot `_current_config`. -/
abbrev Snapshot := List (String × PipelineSourceConfig)

/-- The entry loop of `_update_config_items` lines 116-146, against an
already-loaded secrets mapping: write each successfully resolved entry into
the snapshot; failed entries are skipped. -/
def apply_updates (secrets : List (String × List (String × String)))
    (updated_configs : List (String × StoredPipelineSourceConfig))
    (current : Snapshot) : Snapshot :=
  updated_configs.foldl
    (fun acc e =>
      match resolve_entry secrets e.2 with
      | some v => setKey e.1 v acc
      | Option.none => acc)
    current

/-- From `config.py` lines 106-146, `PipelineConfigLoader._update_config_items`:
resolve the secrets referenced by the freshly parsed entries, then run the
entry loop. -/
def update_config_items (cluster : ClusterSecrets)
    (updated_configs : List (String × StoredPipelineSourceConfig))
    (current : Snapshot) : Snapshot :=
  apply_updates (load_secrets cluster (secret_names updated_configs))
    updated_configs current

/-- The secrets mapping a given `update_config` pass resolves against, for
stating per-entry preservation. -/
def effective_secrets (cluster : ClusterSecrets)
    (cm_data : List (String × Option StoredPipelineSourceConfig)) :
    List (String × List (String × String)) :=
  load_secrets cluster
    (secret_names (cm_data.filterMap (fun e => e.2.map (fun sc => (e.1, sc)))))

/-- From `config.py` lines 148-170, `PipelineConfigLoader.update_config`.
`cm_data` is the freshly read `pipelines` ConfigMap: each entry's value is
given as the outcome of `json.loads` + `StoredPipelineSourceConfig.from_dict`
(`none` = the parse failed with one of the caught error kinds, and the entry
was logged and skipped).  After the item pass, every snapshot key absent from
the ConfigMap is deleted (`discarded_names` loop). -/
def update_config (cluster : ClusterSecrets)
    (cm_data : List (String × Option StoredPipelineSourceConfig))
    (current : Snapshot) : Snapshot :=
  let updated_configs := cm_data.filterMap (fun e => e.2.map (fun sc => (e.1, sc)))
  let after_items := update_config_items cluster updated_configs current
  after_items.filter (fun e => decide (e.1 ∈ cm_data.map Prod.fst))

/-- The invariant claimed for snapshot entries: an authenticated entry holds
a non-empty resolved token. -/
def goodEntry (v : PipelineSourceConfig) : Prop :=
  v.auth_type ≠ PipelineSourceAuth.none → ∃ t, v.auth_token = some t ∧ t ≠ ""

/-- A cluster API failure, as seen through `kubernetes_asyncio`'s
`ApiException`: only the HTTP status participates in the handler logic. -/
structure ApiException where
  status : Nat
deriving DecidableEq

/-- What `PipelineConfigLoader._load_config` (lines 70-81) does for the
caller.  Python semantics of the source, traced: the `try` body binds
`configmap`; on `ApiException` with status 404 the handler returns `{}`; on
any other `ApiException` the handler body is exhausted without `raise` or
`return`, the exception is thereby suppressed, and execution continues at
`return configmap.data or {}` where `configmap` was never bound — which
raises `UnboundLocalError`.  No branch re-raises the caught exception, so its
HTTP status is lost. -/
inductive LoadConfigResult where
  | ok (data : List (String × String))
  | unboundLocalError
deriving DecidableEq

/-- From `config.py` lines 70-81 (`src/ai_operators/kb_operator/pipelines/`)
and identically `src/ml_operator/pipelines/config.py` lines 43-54:
`_load_config` as a function of the ConfigMap read outcome.  A successful
read carries `configmap.data`, which may be absent (`data or {}`). -/
def load_config
    (read_result : Except ApiException (Option (List (String × String)))) :
    LoadConfigResult :=
  match read_result with
  | .ok data => .ok (data.getD [])
  | .error e => if e.status = 404 then .ok [] else .unboundLocalError

/-- Modelled from the spec: the kb_operator `PipelineDownloader`'s
request-header construction.  The file
`src/ai_operators/kb_operator/pipelines/downloader.py` is not present under
`src/` (only `tests/kb_operator/test_pipelines.py` imports it); spec §4.4
states: emit `If-None-Match`/`If-Modified-Since` for supplied validators;
when `auth_kind = basic`, emit `Authorization: Basic <token>` (the token is
pre-encoded); when `auth_kind = bearer`, emit `Authorization: Bearer <token>`;
no `Authorization` header otherwise. -/
def kb_request_headers (config : PipelineSourceConfig)
    (etag last_modified : Option String) : List (String × String) :=
  (match etag with
   | some s => if s = "" then [] else [("If-None-Match", s)]
   | Option.none => []) ++
  (match last_modified with
   | some s => if s = "" then [] else [("If-Modified-Since", s)]
   | Option.none => []) ++
  (match config.auth_type, config.auth_token with
   | .basic, some t => [("Authorization", "Basic " ++ t)]
   | .bearer, some t => [("Authorization", "Bearer " ++ t)]
   | _, _ => [])

end KbPipelines

namespace AgentOperator

open Py

/-- Values inside the opaque tool / route / parameter mappings (the JSON
scalars the claims exercise). -/
inductive JVal where
  | s (v : String)
  | n (v : Int)
  | b (v : Bool)
deriving DecidableEq

/-- A tool entry of an agent spec: a Python dict with at least `type` and
`name`; `config` is the key the enrichment writes; any further keys are
carried through `tool.copy()` untouched. -/
structure Tool where
  tool_type : Option String := none
  name : Option String := none
  config : Option (List (String × JVal)) := none
  extra : List (String × JVal) := []
deriving DecidableEq

/-- From `src/ai_operators/agent_operator/resource.py`, `AkamaiAgent`:
note the decoded field is `agent_instructions` (there is no `system_prompt`
attribute on this resource class). -/
structure AkamaiAgent where
  foundation_model : String
  agent_instructions : String
  max_tokens : Nat := 512
  routes : List (List (String × JVal)) := []
  tools : List Tool := []
deriving DecidableEq

/-- From `resource.py`, `AkamaiKnowledgeBase` (decoded spec). -/
structure AkamaiKnowledgeBase where
  pipeline_name : String
  pipeline_parameters : List (String × JVal)
deriving DecidableEq

/-- From `src/ai_operators/agent_operator/model/kb_data.py`, `KBData`. -/
structure KBData where
  name : String
  pipeline_name : String
  pipeline_parameters : List (String × JVal)
deriving DecidableEq

/-- `KBData.to_config_dict` (lines 15-20): the flattened
`{pipeline_name, **pipeline_parameters}` mapping. -/
def KBData.to_config_dict (kb : KBData) : List (String × JVal) :=
  ("pipeline_name", JVal.s kb.pipeline_name) :: kb.pipeline_parameters

/-- Python exceptions the agent-data path raises. -/
inductive PyErr where
  | valueError (message : String)
  | attributeError (message : String)
deriving DecidableEq

/-- The message of a Python exception, as `str(e)` produces it. -/
def PyErr.message : PyErr → String
  | .valueError m => m
  | .attributeError m => m

/-- The cluster's `AkamaiKnowledgeBase` custom objects, keyed by
`(namespace, name)`, already decoded (`from_spec` applied). -/
abbrev KbCluster := List ((String × String) × AkamaiKnowledgeBase)

/-- From `src/ai_operators/agent_operator/utils/k8s.py` lines 79-97,
`fetch_knowledge_base_config`: `get_custom_object` maps a 404 to `None`
(lines 22-38), and an absent object raises
`ValueError(f"Knowledge base '{kb_name}' not found in namespace '{namespace}'")`. -/
def fetch_knowledge_base_config (cluster : KbCluster) (namespace_ name_ : String) :
    Except PyErr AkamaiKnowledgeBase :=
  match getKey (namespace_, name_) cluster with
  | some kb => .ok kb
  | none => .error (.valueError
      ("Knowledge base '" ++ name_ ++ "' not found in namespace '" ++ namespace_ ++ "'"))

/-- From `model/kb_data.py` lines 23-30, `create_kb_data`. -/
def create_kb_data (cluster : KbCluster) (namespace_ kb_name : String) :
    Except PyErr KBData := do
  let kb_cr ← fetch_knowledge_base_config cluster namespace_ kb_name
  return ⟨kb_name, kb_cr.pipeline_name, kb_cr.pipeline_parameters⟩

/-- A cluster Service, as listed by the endpoint discovery. -/
structure V1Service where
  name : String
  service_namespace : String
  labels : List (String × String)
deriving DecidableEq

/-- Kubernetes semantics of the label selector `modelType,modelName=${m}`
passed at `utils/k8s.py` line 106: the `modelType` label key exists, and the
`modelName` label equals `m`. -/
def matches_model_selector (model_name : String) (svc : V1Service) : Bool :=
  (getKey "modelType" svc.labels).isSome &&
    getKey "modelName" svc.labels == some model_name

/-- From `utils/k8s.py` lines 100-119, `get_foundation_model_endpoint`:
take the first matching service cluster-wide and build the cluster-local DNS
name; no match raises a `ValueError`. -/
def get_foundation_model_endpoint (services : List V1Service) (model_name : String) :
    Except PyErr String :=
  match services.filter (matches_model_selector model_name) with
  | svc :: _ => .ok (svc.name ++ "." ++ svc.service_namespace ++ ".svc.cluster.local")
  | [] => .error (.valueError
      ("Foundation model '" ++ model_name ++
        "' not found. No service with labels modelType,modelName=" ++ model_name))

/-- From `src/ai_operators/agent_operator/model/agent_data.py`, `AgentData`. -/
structure AgentData where
  namespace_ : String
  name : String
  foundation_model : String
  foundation_model_endpoint : String
  system_prompt : String
  routes : List (List (String × JVal)) := []
  tools : List Tool := []
deriving DecidableEq

/-- The per-tool body of the loop at `model/agent_data.py` lines 27-40:
copy the tool, sanitize its `name` to underscore form, and for a
`knowledgeBase`-typed tool fetch the knowledge base under the *sanitized*
name (`tool_copy.get("name")`, line 35) and attach its flattened config. -/
def enrich_tool (cluster : KbCluster) (namespace_ : String) (tool : Tool) :
    Except PyErr Tool := do
  let tool_copy :=
    match tool.name with
    | some n => { tool with name := some (replaceDashUnderscore n) }
    | none => tool
  if tool.tool_type = some "knowledgeBase" then
    match tool_copy.name with
    | some kb_name =>
      if kb_name = "" then
        return tool_copy
      else do
        let kb_data ← create_kb_data cluster namespace_ kb_name
        return { tool_copy with config := some kb_data.to_config_dict }
    | none => return tool_copy
  else
    return tool_copy

/-- From `model/agent_data.py` lines 23-55, `create_agent_data`: enrich the
tools (left to right, first failure propagating), resolve the foundation-model
endpoint, and build the `AgentData`.  The final construction reads
`agent.system_prompt` (line 52), an attribute `AkamaiAgent` does not define —
in Python this raises `AttributeError`, which the model reproduces. -/
def create_agent_data (cluster : KbCluster) (services : List V1Service)
    (namespace_ _name : String) (agent : AkamaiAgent) : Except PyErr AgentData := do
  let _tools ← agent.tools.mapM (enrich_tool cluster namespace_)
  let _endpoint ← get_foundation_model_endpoint services agent.foundation_model
  .error (.attributeError "'AkamaiAgent' object has no attribute 'system_prompt'")

/-- The cluster API failure type used by the deployer: `ApiException` with
its HTTP status. -/
structure ApiException where
  status : Nat
deriving DecidableEq

/-- From `services/helm_utils.py` lines 15-27, `_create_agent_config`. -/
structure AgentConfigPayload where
  namespace_ : String
  name : String
  foundation_model_name : String
  foundation_model_endpoint : String
  system_prompt : String
  routes : List (List (String × JVal))
  tools : List Tool
deriving DecidableEq

/-- `_create_agent_config(agent_data)`. -/
def create_agent_config (d : AgentData) : AgentConfigPayload :=
  ⟨d.namespace_, d.name, d.foundation_model, d.foundation_model_endpoint,
    d.system_prompt, d.routes, d.tools⟩

/-- From `services/helm_utils.py` lines 30-40, `create_helm_values`: the
agent name under `nameOverride` and the agent config under `agentConfig`
(the pretty-printed JSON serialization of the payload is elided; the payload
is kept structured). -/
structure HelmValues where
  nameOverride : String
  agentConfig : AgentConfigPayload
deriving DecidableEq

/-- `create_helm_values(agent_data)`. -/
def create_helm_values (d : AgentData) : HelmValues :=
  ⟨d.name, create_agent_config d⟩

/-- The environment the GitOps deployer reads (`AGENT_CHART_REPO_URL`,
`AGENT_CHART_REPO_REVISION`, `AGENT_CHART_PATH`, with their defaults applied
upstream). -/
structure ArgoEnv where
  git_repo_url : String := "https://github.com/linode/ai-operators.git"
  git_target_revision : String := "main"
  chart_path : String := "agent"
deriving DecidableEq

/-- The `Application` custom object built by `get_application_template`
(`src/agent_operator/services/argocd_templates.py`), restricted to the
varying fields; the constant annotations, labels and sync policy are
structurally fixed in the template and elided. -/
structure ArgoApplication where
  apiVersion : String
  kind : String
  metadata_name : String
  metadata_namespace : String
  repo_url : String
  chart_path : String
  target_revision : String
  helm_values : HelmValues
  destination_namespace : String
deriving DecidableEq

/-- From `services/argocd_deployer.py` lines 33-54,
`ArgoCDDeployer._create_argocd_application`: the per-agent application named
`agent-<name>` in the managed `argocd` namespace. -/
def create_argocd_application (env : ArgoEnv) (d : AgentData) : ArgoApplication :=
  { apiVersion := "argoproj.io/v1alpha1"
    kind := "Application"
    metadata_name := "agent-" ++ d.name
    metadata_namespace := "argocd"
    repo_url := env.git_repo_url
    chart_path := env.chart_path
    target_revision := env.git_target_revision
    helm_values := create_helm_values d
    destination_namespace := d.namespace_ }

/-- The cluster calls the deployer issues, in program order. -/
inductive K8sCall where
  | createApp (name : String) (body : ArgoApplication)
  | patchApp (name : String) (body : ArgoApplication)
deriving DecidableEq

/-- From `services/argocd_deployer.py` lines 87-109,
`ArgoCDDeployer.update_agent`: patch the application under its name and
return the name; any `ApiException` from the patch is re-raised.
`patch_result` is the outcome of the `patch_namespaced_custom_object` call. -/
def update_agent (env : ArgoEnv) (d : AgentData)
    (patch_result : Except ApiException Unit) :
    List K8sCall × Except ApiException String :=
  let application := create_argocd_application env d
  ([.patchApp application.metadata_name application],
   match patch_result with
   | .ok _ => .ok application.metadata_name
   | .error e => .error e)

/-- From `services/argocd_deployer.py` lines 56-85,
`ArgoCDDeployer.create_agent`: create the application; a 409 conflict is
treated as "already exists" and retried via `update_agent` on the same agent
data; any other `ApiException` is re-raised.  `create_result` and
`patch_result` are the outcomes of the two cluster calls. -/
def create_agent (env : ArgoEnv) (d : AgentData)
    (create_result : Except ApiException Unit)
    (patch_result : Except ApiException Unit) :
    List K8sCall × Except ApiException String :=
  let application := create_argocd_application env d
  match create_result with
  | .ok _ => ([.createApp application.metadata_name application],
      .ok application.metadata_name)
  | .error e =>
    if e.status = 409 then
      let upd := update_agent env d patch_result
      (.createApp application.metadata_name application :: upd.1, upd.2)
    else
      ([.createApp application.metadata_name application], .error e)

end AgentOperator

namespace LegacyAgentOperator

open Py

/-- The `knowledgeBase` sub-status written by the status service. -/
structure KnowledgeBaseStatus where
  name : Option String := none
  status : String
  error : Option String := none
deriving DecidableEq

/-- A merge-patch body written to the agent's status subresource
(`src/agent_operator/services/status_service.py`): the fields the service
populates.  The `lastUpdated` RFC-3339 timestamp the service adds is wall
clock and carries no claim content, so it is elided. -/
structure StatusPatch where
  phase : Option String := none
  deploymentId : Option String := none
  message : String
  error : Option String := none
  knowledgeBase : Option KnowledgeBaseStatus := none
deriving DecidableEq

/-- `StatusService.set_agent_deployed` (lines 53-67). -/
def set_agent_deployed_patch (deployment_id : String) : StatusPatch :=
  { phase := some "Deployed", deploymentId := some deployment_id,
    message := "Agent successfully deployed" }

/-- `StatusService.clear_agent_failed` (lines 69-75). -/
def clear_agent_failed_patch : StatusPatch :=
  { phase := some "Deployed", message := "Agent deployment recovered" }

/-- `StatusService.set_agent_failed` (lines 77-87). -/
def set_agent_failed_patch (error : String) : StatusPatch :=
  { phase := some "Failed", message := "Agent deployment failed: " ++ error,
    error := some error }

/-- `StatusService.set_knowledge_base_error` (lines 97-110). -/
def set_knowledge_base_error_patch (error : String) : StatusPatch :=
  { phase := some "Failed",
    knowledgeBase := some { status := "Error", error := some error },
    message := "Knowledge base error: " ++ error,
    error := some error }

/-- The error routing of `AgentHandler.created` / `AgentHandler.updated`
(`src/agent_operator/handlers/agent_handler.py` lines 52-60 and 75-83):
an exception whose `str(e)` contains `"Knowledge base"` goes to the
knowledge-base error patch, any other to the generic failed patch. -/
def route_error (e : String) : StatusPatch :=
  if pyIn "Knowledge base" e then set_knowledge_base_error_patch e
  else set_agent_failed_patch e

/-- From `handlers/agent_handler.py` lines 30-60, `AgentHandler.created`,
as a function of the outcomes of its three fallible collaborator calls
(`create_agent_data`, `get_deployment_status`, `create_agent`; an error value
is the `str()` of the raised exception; a truthy deployment status is
`some`).  Status-service patches are recorded as emitted bodies.  When the
deployment already exists the handler sets `Deployed` with the agent name as
deployment id and returns early.  Returns the patches written, in order, and
`ok` or the re-raised error. -/
def agent_created (name : String)
    (data_result : Except String Unit)
    (status_result : Except String (Option Unit))
    (create_result : Except String String) :
    List StatusPatch × Except String Unit :=
  match data_result with
  | .error e => ([route_error e], .error e)
  | .ok _ =>
    match status_result with
    | .error e => ([route_error e], .error e)
    | .ok (some _) => ([set_agent_deployed_patch name], .ok ())
    | .ok none =>
      match create_result with
      | .error e => ([route_error e], .error e)
      | .ok deployment_id =>
        ([set_agent_deployed_patch deployment_id, clear_agent_failed_patch], .ok ())

/-- From `handlers/agent_handler.py` lines 62-83, `AgentHandler.updated`:
like create, without the pre-existence check. -/
def agent_updated
    (data_result : Except String Unit)
    (update_result : Except String String) :
    List StatusPatch × Except String Unit :=
  match data_result with
  | .error e => ([route_error e], .error e)
  | .ok _ =>
    match update_result with
    | .error e => ([route_error e], .error e)
    | .ok deployment_id =>
      ([set_agent_deployed_patch deployment_id, clear_agent_failed_patch], .ok ())

end LegacyAgentOperator

section Fixtures

/-- A small downloader configuration: 4-byte size limit. -/
def cfgC1 : MlPipelines.PipelineDownloadConfig :=
  { local_path := ["tmp"], max_size := 4, chunk_size := 3 }

/-- A 200 non-zip response whose 6-byte body exceeds `cfgC1`'s 4-byte limit
only at the second chunk. -/
def respC1 : MlPipelines.ClientResponse :=
  { status := 200
    content_type := "application/x-yaml"
    content_disposition_filename := none
    content_length := none
    etag := some "E"
    last_modified := some "L"
    chunks := [[1, 1, 1], [2, 2, 2]] }

/-- A 200 zip response within the size limit of `cfgC1` (the bytes stand for
a perfectly valid archive; the downloader never gets to parse them). -/
def respC2 : MlPipelines.ClientResponse :=
  { status := 200
    content_type := "application/zip"
    content_disposition_filename := none
    content_length := none
    etag := some "E"
    last_modified := some "L"
    chunks := [[80, 75]] }

/-- The cluster knowledge bases of scenario (b): `my-kb` in `team-a` with
pipeline `emb` and parameters `{"x": 1}`. -/
def kbClusterC3 : AgentOperator.KbCluster :=
  [(("team-a", "my-kb"), ⟨"emb", [("x", AgentOperator.JVal.n 1)]⟩)]

/-- A service labelled `modelType` with `modelName=llama`, in namespace
`models`. -/
def servicesC9 : List AgentOperator.V1Service :=
  [{ name := "llama-svc", service_namespace := "models",
     labels := [("modelType", "llm"), ("modelName", "llama")] }]

/-- The agent of scenario (b): one `knowledgeBase` tool named `my-kb`. -/
def agentC3 : AgentOperator.AkamaiAgent :=
  { foundation_model := "llama"
    agent_instructions := "hi"
    tools := [{ tool_type := some "knowledgeBase", name := some "my-kb" }] }

/-- An agent data value for exercising the GitOps deployer. -/
def agentDataC8 : AgentOperator.AgentData :=
  { namespace_ := "team-a", name := "bot", foundation_model := "llama",
    foundation_model_endpoint := "llama-svc.models.svc.cluster.local",
    system_prompt := "hi" }

end Fixtures

section AListLemmas

open Py

theorem getKey_setKey_self {κ α : Type} [DecidableEq κ] (k : κ) (v : α)
    (l : List (κ × α)) : getKey k (setKey k v l) = some v := by
  induction l with
  | nil => simp [setKey, getKey]
  | cons e t ih =>
    obtain ⟨q, w⟩ := e
    by_cases h : q = k
    · simp [setKey, getKey, h]
    · simp [setKey, getKey, h, ih]

theorem getKey_setKey_ne {κ α : Type} [DecidableEq κ] {p k : κ} (v : α)
    (l : List (κ × α)) (h : p ≠ k) : getKey p (setKey k v l) = getKey p l := by
  have hk : ¬ k = p := fun hk => h hk.symm
  induction l with
  | nil => simp [setKey, getKey, hk]
  | cons e t ih =>
    obtain ⟨q, w⟩ := e
    by_cases hq : q = k
    · subst hq
      simp [setKey, getKey, hk]
    · by_cases hp : q = p
      · subst hp
        simp [setKey, getKey, hq, h]
      · simp [setKey, getKey, hq, hp, ih]

theorem getKey_setKey_isSome {κ α : Type} [DecidableEq κ] (p k : κ) (v : α)
    (l : List (κ × α)) (h : (getKey p l).isSome = true) :
    (getKey p (setKey k v l)).isSome = true := by
  by_cases hk : p = k
  · subst hk
    simp [getKey_setKey_self]
  · rw [getKey_setKey_ne v l hk]
    exact h

theorem getKey_filter_pred {α : Type} (f : String → Bool) (k : String)
    (l : List (String × α)) :
    getKey k (l.filter (fun e => f e.1)) = if f k then getKey k l else none := by
  induction l with
  | nil => simp [getKey]
  | cons e t ih =>
    obtain ⟨q, w⟩ := e
    by_cases hq : q = k
    · subst hq
      by_cases hf : f q
      · simp [List.filter, hf, getKey, ih]
      · simp [List.filter, hf, getKey, ih]
    · by_cases hf : f q
      · simp [List.filter, hf, getKey, hq, ih]
      · simp [List.filter, hf, getKey, hq, ih]

theorem getKey_append_cases {α : Type} (k : String) (l1 l2 : List (String × α)) :
    getKey k (l1 ++ l2)
      = match getKey k l1 with
        | some v => some v
        | none => getKey k l2 := by
  induction l1 with
  | nil => simp [getKey]
  | cons e t ih =>
    obtain ⟨q, w⟩ := e
    by_cases hq : q = k
    · simp [getKey, hq]
    · simp [getKey, hq, ih]

theorem mem_of_getKey_some {κ α : Type} [DecidableEq κ] {k : κ} {v : α}
    {l : List (κ × α)} (h : getKey k l = some v) : (k, v) ∈ l := by
  induction l with
  | nil => simp [getKey] at h
  | cons e t ih =>
    obtain ⟨q, w⟩ := e
    by_cases hq : q = k
    · subst hq
      simp [getKey] at h
      simp [h]
    · simp [getKey, hq] at h
      exact List.mem_cons_of_mem _ (ih h)

theorem getKey_eq_none_of_not_mem_keys {κ α : Type} [DecidableEq κ] {k : κ}
    {l : List (κ × α)} (h : k ∉ l.map Prod.fst) : getKey k l = none := by
  induction l with
  | nil => simp [getKey]
  | cons e t ih =>
    obtain ⟨q, w⟩ := e
    simp only [List.map_cons, List.mem_cons] at h
    push_neg at h
    have hq : ¬ q = k := fun hqk => h.1 hqk.symm
    simp [getKey, hq, ih h.2]

theorem keys_nodup_getKey_unique {κ α : Type} [DecidableEq κ] {k : κ} {a b : α}
    {l : List (κ × α)} (hnd : (l.map Prod.fst).Nodup)
    (ha : (k, a) ∈ l) (hb : (k, b) ∈ l) : a = b := by
  induction l with
  | nil => simp at ha
  | cons e t ih =>
    obtain ⟨q, w⟩ := e
    simp only [List.map_cons, List.nodup_cons] at hnd
    rcases List.mem_cons.mp ha with ha1 | ha1 <;>
      rcases List.mem_cons.mp hb with hb1 | hb1
    · rw [Prod.mk.injEq] at ha1 hb1
      rw [ha1.2, hb1.2]
    · exfalso
      apply hnd.1
      rw [Prod.mk.injEq] at ha1
      rw [← ha1.1]
      exact List.mem_map_of_mem Prod.fst hb1
    · exfalso
      apply hnd.1
      rw [Prod.mk.injEq] at hb1
      rw [← hb1.1]
      exact List.mem_map_of_mem Prod.fst ha1
    · exact ih hnd.2 ha1 hb1

end AListLemmas

section C1

open Py MlPipelines

theorem writeLoop_exceeded (max : Nat) :
    ∀ (chunks : List Bytes) (total : Nat) (acc : Bytes),
      total ≤ max → total + totalLen chunks > max →
      (writeLoop max total acc chunks).2 = true := by
  intro chunks
  induction chunks with
  | nil =>
    intro total acc h1 h2
    exfalso
    simp [totalLen] at h2
    omega
  | cons c rest ih =>
    intro total acc h1 h2
    simp only [writeLoop]
    by_cases hc : total + c.length > max
    · simp [hc]
    · simp only [hc, if_false]
      apply ih
      · omega
      · simp [totalLen] at h2 ⊢
        omega

theorem writeLoop_bytes_le (max : Nat) :
    ∀ (chunks : List Bytes) (total : Nat) (acc : Bytes),
      acc.length ≤ total → total ≤ max →
      (writeLoop max total acc chunks).1.length ≤ max := by
  intro chunks
  induction chunks with
  | nil =>
    intro total acc h1 h2
    simp only [writeLoop]
    omega
  | cons c rest ih =>
    intro total acc h1 h2
    simp only [writeLoop]
    by_cases hc : total + c.length > max
    · simp only [hc, if_true]
      omega
    · simp only [hc, if_false]
      apply ih
      · simp
        omega
      · omega

theorem raisedSizeExceeded_error_iff {α : Type} (e : DownloadError) :
    raisedSizeExceeded (Except.error e : Except DownloadError α) = true
      ↔ ∃ m, e = .sizeExceeded m := by
  cases e <;> simp [raisedSizeExceeded]

theorem verify_error_is_size (cfg : PipelineDownloadConfig)
    (cl : Option String) (e : DownloadError)
    (h : verify_content_length cfg cl = .error e) : ∃ m, e = .sizeExceeded m := by
  unfold verify_content_length at h
  split at h
  · exact absurd h (by simp)
  · split at h
    · exact absurd h (by simp)
    · split at h
      · split at h
        · simp only [Except.error.injEq] at h
          exact ⟨_, h.symm⟩
        · exact absurd h (by simp)
      · exact absurd h (by simp)

theorem process_response_oversize (cfg : PipelineDownloadConfig)
    (resp : ClientResponse) (baseDir : FPath) (fs : FileSystem)
    (hsize : totalLen resp.chunks > cfg.max_size) :
    raisedSizeExceeded (process_response cfg resp baseDir fs).1 = true
    ∧ (pyEndsWith resp.content_type "zip" = true →
        (process_response cfg resp baseDir fs).2 = fs)
    ∧ (∀ e, verify_content_length cfg resp.content_length = .error e →
        (process_response cfg resp baseDir fs).2 = fs)
    ∧ (pyEndsWith resp.content_type "zip" = false →
        ∀ cl, verify_content_length cfg resp.content_length = .ok cl →
          (process_response cfg resp baseDir fs).2
            = setKey (nonZipTarget baseDir resp)
                (writeLoop cfg.max_size 0 [] resp.chunks).1 fs) := by
  have hexc : (writeLoop cfg.max_size 0 [] resp.chunks).2 = true :=
    writeLoop_exceeded cfg.max_size resp.chunks 0 [] (Nat.zero_le _) (by simpa using hsize)
  cases hv : verify_content_length cfg resp.content_length with
  | error e =>
    obtain ⟨m, rfl⟩ := verify_error_is_size cfg resp.content_length e hv
    refine ⟨?_, ?_, ?_, ?_⟩
    · simp [process_response, hv, raisedSizeExceeded]
    · intro _
      simp [process_response, hv]
    · intro _ _
      simp [process_response, hv]
    · intro _ cl hcl
      exact absurd hcl (by simp)
  | ok cl0 =>
    by_cases hz : pyEndsWith resp.content_type "zip"
    · refine ⟨?_, ?_, ?_, ?_⟩
      · simp [process_response, hv, hz, hexc, raisedSizeExceeded]
      · intro _
        simp [process_response, hv, hz, hexc]
      · intro e he
        exact absurd he (by simp)
      · intro hz'
        rw [hz] at hz'
        exact absurd hz' (by simp)
    · refine ⟨?_, ?_, ?_, ?_⟩
      · simp [process_response, hv, hz, hexc, raisedSizeExceeded]
      · intro hz'
        rw [eq_comm] at hz'
        exact absurd hz' (by simp [hz])
      · intro e he
        exact absurd he (by simp)
      · intro _ cl1 _
        simp [process_response, hv, hz, hexc]

/-- C1 (amended): for every 200 response whose body exceeds `max_size`,
`get_pipeline_files` raises `SizeExceededException` and no
`PipelineFileResponse` emerges; no file is written when the pre-streaming
`Content-Length` check fires or the body is a zip (temporary buffer); but for
a non-zip response that begins streaming, the partially written output file
(at most `max_size` bytes) is left on disk at the target path rather than
discarded. -/
theorem c1_size_bound_amended (cfg : PipelineDownloadConfig) (name : String)
    (resp : ClientResponse) (fs : FileSystem)
    (h200 : resp.status = 200)
    (hsize : totalLen resp.chunks > cfg.max_size) :
    raisedSizeExceeded (get_pipeline_files cfg name resp fs).1 = true
    ∧ (∀ e, verify_content_length cfg resp.content_length = .error e →
        (get_pipeline_files cfg name resp fs).2 = fs)
    ∧ (pyEndsWith resp.content_type "zip" = true →
        (get_pipeline_files cfg name resp fs).2 = fs)
    ∧ (pyEndsWith resp.content_type "zip" = false →
        ∀ cl, verify_content_length cfg resp.content_length = .ok cl →
          ∃ partial_content,
            getKey (nonZipTarget (cfg.local_path ++ [name]) resp)
                (get_pipeline_files cfg name resp fs).2 = some partial_content
            ∧ partial_content.length ≤ cfg.max_size) := by
  obtain ⟨hp1, hp2, hp3, hp4⟩ :=
    process_response_oversize cfg resp (cfg.local_path ++ [name]) fs hsize
  have hmain : get_pipeline_files cfg name resp fs
      = (match process_response cfg resp (cfg.local_path ++ [name]) fs with
         | (.ok r, fs1) => (.ok (true, some r), fs1)
         | (.error e, fs1) => (.error e, fs1)) := by
    unfold get_pipeline_files
    rw [h200]
    rw [if_neg (by decide), if_neg (by decide), if_pos rfl]
  cases hpr : process_response cfg resp (cfg.local_path ++ [name]) fs with
  | mk res fs1 =>
    cases res with
    | ok r =>
      rw [hpr] at hp1
      simp [raisedSizeExceeded] at hp1
    | error e =>
      have hget : get_pipeline_files cfg name resp fs = (.error e, fs1) := by
        rw [hmain, hpr]
      refine ⟨?_, ?_, ?_, ?_⟩
      · rw [hget]
        rw [hpr] at hp1
        exact (raisedSizeExceeded_error_iff e).mpr ((raisedSizeExceeded_error_iff e).mp hp1)
      · intro e1 he1
        rw [hget]
        have := hp3 e1 he1
        rw [hpr] at this
        exact this
      · intro hz
        rw [hget]
        have := hp2 hz
        rw [hpr] at this
        exact this
      · intro hz cl hcl
        have hfs1 : fs1 = setKey (nonZipTarget (cfg.local_path ++ [name]) resp)
            (writeLoop cfg.max_size 0 [] resp.chunks).1 fs := by
          have := hp4 hz cl hcl
          rw [hpr] at this
          exact this
        refine ⟨(writeLoop cfg.max_size 0 [] resp.chunks).1, ?_, ?_⟩
        · rw [hget, hfs1]
          exact getKey_setKey_self _ _ _
        · exact writeLoop_bytes_le cfg.max_size resp.chunks 0 []
            (Nat.le_refl 0) (Nat.zero_le _)

/-- C1 witness: the amended theorem applied to `respC1` streaming into
`cfgC1`'s 4-byte limit. -/
theorem c1_size_bound_witness :
    respC1.status = 200
    ∧ totalLen respC1.chunks > cfgC1.max_size
    ∧ raisedSizeExceeded (get_pipeline_files cfgC1 "src" respC1 []).1 = true :=
  ⟨by decide, by decide,
    (c1_size_bound_amended cfgC1 "src" respC1 [] (by decide) (by decide)).1⟩

/-- C1 counterexample: for the oversize non-zip 200 response `respC1`,
`SizeExceededException` is raised, yet the partially written output file
remains on disk at `${local_path}/src/pipeline.yaml` with the chunks that
fit, contradicting "the partially written output file is discarded rather
than left on disk". -/
theorem c1_partial_file_left_on_disk :
    raisedSizeExceeded (get_pipeline_files cfgC1 "src" respC1 []).1 = true
    ∧ getKey ["tmp", "src", "pipeline.yaml"]
        (get_pipeline_files cfgC1 "src" respC1 []).2 = some [1, 1, 1] := by
  decide

end C1

section C2

open Py MlPipelines

/-- C2: evaluation at the claim's scenario.  For a 200 zip response within
the size limit, `get_pipeline_files` raises `zipfile.BadZipFile` and writes
nothing: the body went into a temporary file opened `"wb"`, which `ZipFile`
cannot read back, so the member filter of `_extract_files` — which would
keep `good.yaml` and reject `../evil.yaml`, `/abs.yaml` and `other.py`,
exactly as the claim describes (final conjunct) — is never reached, no
member is written, and no `file_paths` are returned. -/
theorem c2_zip_extraction_unreachable :
    pyEndsWith respC2.content_type "zip" = true
    ∧ totalLen respC2.chunks ≤ cfgC1.max_size
    ∧ get_pipeline_files cfgC1 "src" respC2 []
        = (.error (.badZipFile "File is not a zip file"), [])
    ∧ extract_files ["d"]
        [("good.yaml", [7]), ("../evil.yaml", [8]), ("/abs.yaml", [9]),
         ("other.py", [10])] []
      = ([["d", "good.yaml"]], [(["d", "good.yaml"], [7])]) :=
  ⟨rfl, by decide, rfl, rfl⟩

end C2

section C5

open Py MlPipelines

/-- C5: if the fetch against the cached validators reports not-modified
(`(False, None)`), `update_source` performs no upload and leaves the
response cache unchanged; on a modified fetch the uploads all precede the
single cache replacement, which installs the new response under the source
name. -/
theorem c5_cache_monotonicity (cache : List (String × PipelineFileResponse))
    (name : String) (config : PipelineSourceConfig)
    (fetch : Option (Option String × Option String) → FetchOutcome) :
    (fetch ((getKey name cache).map (fun r => (r.etag, r.last_modified)))
        = .notModified →
      update_source cache name config fetch = ([], cache))
    ∧ (∀ r, fetch ((getKey name cache).map (fun r => (r.etag, r.last_modified)))
        = .modified r →
      update_source cache name config fetch
        = (r.file_paths.map
            (fun p => UpdaterEvent.upload p (config.version.getD "1.0.0")) ++
            [UpdaterEvent.cacheWrite name r],
          setKey name r cache)) := by
  constructor
  · intro h
    simp [update_source, h]
  · intro r h
    simp [update_source, h]

/-- C5 witness: a cached source whose second fetch returns 304. -/
theorem c5_cache_monotonicity_witness :
    update_source [("default", ⟨[], some "E", some "L"⟩)] "default" ⟨"u", none⟩
        (fun _ => .notModified)
      = ([], [("default", ⟨[], some "E", some "L"⟩)]) :=
  (c5_cache_monotonicity [("default", ⟨[], some "E", some "L"⟩)] "default"
    ⟨"u", none⟩ (fun _ => .notModified)).1 rfl

end C5

section C4

open Py KbPipelines

theorem getKey_authorization_validators (etag last_modified : Option String) :
    getKey "Authorization"
      ((match etag with
        | some s => if s = "" then [] else [("If-None-Match", s)]
        | Option.none => []) ++
       (match last_modified with
        | some s => if s = "" then [] else [("If-Modified-Since", s)]
        | Option.none => [])) = none := by
  have h1 : ("If-None-Match" : String) ≠ "Authorization" := by decide
  have h2 : ("If-Modified-Since" : String) ≠ "Authorization" := by decide
  cases etag with
  | none =>
    cases last_modified with
    | none => rfl
    | some s =>
      by_cases hs : s = "" <;> simp [hs, getKey, h2]
  | some s =>
    cases last_modified with
    | none =>
      by_cases hs : s = "" <;> simp [hs, getKey, h1]
    | some t =>
      by_cases hs : s = "" <;> by_cases ht : t = "" <;>
        simp [hs, ht, getKey, h1, h2, getKey_append_cases]

/-- C4: the request built for a source carries `Authorization: Basic <token>`
when `auth_kind = basic`, `Authorization: Bearer <token>` when
`auth_kind = bearer`, and no `Authorization` header when `auth_kind = none`,
independently of the conditional-fetch validators. -/
theorem c4_auth_headers (config : PipelineSourceConfig)
    (etag last_modified : Option String) :
    (∀ t, config.auth_type = .basic → config.auth_token = some t →
      getKey "Authorization" (kb_request_headers config etag last_modified)
        = some ("Basic " ++ t))
    ∧ (∀ t, config.auth_type = .bearer → config.auth_token = some t →
      getKey "Authorization" (kb_request_headers config etag last_modified)
        = some ("Bearer " ++ t))
    ∧ (config.auth_type = .none →
      getKey "Authorization" (kb_request_headers config etag last_modified)
        = none) := by
  have hval := getKey_authorization_validators etag last_modified
  refine ⟨?_, ?_, ?_⟩
  · intro t hb ht
    unfold kb_request_headers
    rw [getKey_append_cases, hval, hb, ht]
    rfl
  · intro t hb ht
    unfold kb_request_headers
    rw [getKey_append_cases, hval, hb, ht]
    rfl
  · intro hn
    unfold kb_request_headers
    rw [getKey_append_cases, hval, hn]
    rfl

/-- C4 witness: a basic-auth source with pre-encoded token `dGVzdA==` and
both validators present. -/
theorem c4_auth_headers_witness :
    getKey "Authorization"
      (kb_request_headers ⟨"u", Option.none, .basic, some "dGVzdA=="⟩
        (some "E") (some "L")) = some ("Basic " ++ "dGVzdA==") :=
  (c4_auth_headers ⟨"u", Option.none, .basic, some "dGVzdA=="⟩
    (some "E") (some "L")).1 "dGVzdA==" rfl rfl

end C4

section C7

open Py LegacyAgentOperator

theorem route_error_cases (e0 : String) :
    (pyIn "Knowledge base" e0 = true →
      route_error e0 = set_knowledge_base_error_patch e0)
    ∧ (pyIn "Knowledge base" e0 = false → route_error e0 = set_agent_failed_patch e0)
    ∧ (route_error e0).phase ≠ some "Deployed" := by
  refine ⟨?_, ?_, ?_⟩
  · intro ht
    simp [route_error, ht]
  · intro hf
    simp [route_error, hf]
  · by_cases ht : pyIn "Knowledge base" e0 <;>
      simp [route_error, ht, set_knowledge_base_error_patch, set_agent_failed_patch]

theorem agent_created_error_patches (name : String)
    (data_result : Except String Unit) (status_result : Except String (Option Unit))
    (create_result : Except String String) (e : String)
    (h : (agent_created name data_result status_result create_result).2 = .error e) :
    (agent_created name data_result status_result create_result).1
      = [route_error e] := by
  cases data_result with
  | error e0 =>
    simp only [agent_created] at h ⊢
    rw [Except.error.injEq] at h
    rw [h]
  | ok _ =>
    cases status_result with
    | error e0 =>
      simp only [agent_created] at h ⊢
      rw [Except.error.injEq] at h
      rw [h]
    | ok st =>
      cases st with
      | some _ => exact absurd h (by simp [agent_created])
      | none =>
        cases create_result with
        | error e0 =>
          simp only [agent_created] at h ⊢
          rw [Except.error.injEq] at h
          rw [h]
        | ok deployment_id => exact absurd h (by simp [agent_created])

theorem agent_updated_error_patches
    (data_result : Except String Unit) (update_result : Except String String)
    (e : String)
    (h : (agent_updated data_result update_result).2 = .error e) :
    (agent_updated data_result update_result).1 = [route_error e] := by
  cases data_result with
  | error e0 =>
    simp only [agent_updated] at h ⊢
    rw [Except.error.injEq] at h
    rw [h]
  | ok _ =>
    cases update_result with
    | error e0 =>
      simp only [agent_updated] at h ⊢
      rw [Except.error.injEq] at h
      rw [h]
    | ok deployment_id => exact absurd h (by simp [agent_updated])

/-- C7: during agent create or update handling, an exception whose message
contains `"Knowledge base"` leads to exactly one status patch — the body with
`knowledgeBase.status = "Error"` carrying the error text and `phase =
"Failed"` — and no patch with `phase = "Deployed"` is written for the event;
any other exception is routed to the generic failed patch; the exception
surfaces again in both cases (the `.2 = .error e` hypothesis is the
re-raise). -/
theorem c7_kb_error_routing (name : String)
    (data_result : Except String Unit) (status_result : Except String (Option Unit))
    (create_result update_result : Except String String) (e : String) :
    ((agent_created name data_result status_result create_result).2 = .error e →
      (pyIn "Knowledge base" e = true →
        (agent_created name data_result status_result create_result).1
          = [set_knowledge_base_error_patch e])
      ∧ (pyIn "Knowledge base" e = false →
        (agent_created name data_result status_result create_result).1
          = [set_agent_failed_patch e])
      ∧ (∀ p ∈ (agent_created name data_result status_result create_result).1,
          p.phase ≠ some "Deployed"))
    ∧ ((agent_updated data_result update_result).2 = .error e →
      (pyIn "Knowledge base" e = true →
        (agent_updated data_result update_result).1
          = [set_knowledge_base_error_patch e])
      ∧ (pyIn "Knowledge base" e = false →
        (agent_updated data_result update_result).1 = [set_agent_failed_patch e])
      ∧ (∀ p ∈ (agent_updated data_result update_result).1,
          p.phase ≠ some "Deployed"))
    ∧ (set_knowledge_base_error_patch e).knowledgeBase
        = some { name := none, status := "Error", error := some e }
    ∧ (set_knowledge_base_error_patch e).phase = some "Failed" := by
  obtain ⟨hr1, hr2, hr3⟩ := route_error_cases e
  refine ⟨?_, ?_, rfl, rfl⟩
  · intro h
    have hp := agent_created_error_patches name data_result status_result
      create_result e h
    refine ⟨fun ht => by rw [hp, hr1 ht], fun hf => by rw [hp, hr2 hf], ?_⟩
    intro p hmem
    rw [hp] at hmem
    rw [List.mem_singleton] at hmem
    rw [hmem]
    exact hr3
  · intro h
    have hp := agent_updated_error_patches data_result update_result e h
    refine ⟨fun ht => by rw [hp, hr1 ht], fun hf => by rw [hp, hr2 hf], ?_⟩
    intro p hmem
    rw [hp] at hmem
    rw [List.mem_singleton] at hmem
    rw [hmem]
    exact hr3

/-- C7 witness: a create whose data building fails with the knowledge-base
lookup error yields exactly the knowledge-base error patch. -/
theorem c7_kb_error_routing_witness :
    pyIn "Knowledge base" "Knowledge base 'my_kb' not found in namespace 'team-a'"
      = true
    ∧ (agent_created "a1"
        (.error "Knowledge base 'my_kb' not found in namespace 'team-a'")
        (.ok none) (.ok "agent-a1")).1
      = [set_knowledge_base_error_patch
          "Knowledge base 'my_kb' not found in namespace 'team-a'"] :=
  ⟨by decide,
    ((c7_kb_error_routing "a1"
        (.error "Knowledge base 'my_kb' not found in namespace 'team-a'")
        (.ok none) (.ok "agent-a1") (.ok "agent-a1")
        "Knowledge base 'my_kb' not found in namespace 'team-a'").1 rfl).1
      (by decide)⟩

end C7

section C8

open AgentOperator

/-- C8: a 409 conflict on creating the per-agent Application is treated as
"already exists": the same agent data is retried as an update, patching the
same application body under the same name `agent-<name>`, whose success
returns that name as the deployment id; any non-409 create error is
re-raised. -/
theorem c8_conflict_retry (env : ArgoEnv) (d : AgentData)
    (e : ApiException) (patch_result : Except ApiException Unit) :
    (create_argocd_application env d).metadata_name = "agent-" ++ d.name
    ∧ (e.status = 409 →
        create_agent env d (.error e) patch_result
          = ([K8sCall.createApp ("agent-" ++ d.name) (create_argocd_application env d),
              K8sCall.patchApp ("agent-" ++ d.name) (create_argocd_application env d)],
             (update_agent env d patch_result).2)
        ∧ (create_agent env d (.error e) (.ok ())).2 = .ok ("agent-" ++ d.name))
    ∧ (e.status ≠ 409 →
        (create_agent env d (.error e) patch_result).2 = .error e) := by
  refine ⟨rfl, ?_, ?_⟩
  · intro h409
    constructor
    · simp [create_agent, update_agent, create_argocd_application, h409]
    · simp [create_agent, update_agent, create_argocd_application, h409]
  · intro hne
    simp [create_agent, hne]

/-- C8 witness: a 409 followed by a successful patch yields `agent-bot` as
the deployment id. -/
theorem c8_conflict_retry_witness :
    (⟨409⟩ : ApiException).status = 409
    ∧ (create_agent {} agentDataC8 (.error ⟨409⟩) (.ok ())).2
        = .ok ("agent-" ++ "bot") :=
  ⟨rfl, ((c8_conflict_retry {} agentDataC8 ⟨409⟩ (.ok ())).2.1 rfl).2⟩

end C8

section C9

open Py AgentOperator

/-- C9: endpoint resolution filters the cluster's services by the
`modelType,modelName=m` selector; a non-empty match list yields the
`<name>.<namespace>.svc.cluster.local` endpoint of the first match, an empty
one raises the domain `ValueError`. -/
theorem c9_model_endpoint (services : List V1Service) (model_name : String) :
    (∀ svc rest,
      services.filter (matches_model_selector model_name) = svc :: rest →
      get_foundation_model_endpoint services model_name
        = .ok (svc.name ++ "." ++ svc.service_namespace ++ ".svc.cluster.local"))
    ∧ (services.filter (matches_model_selector model_name) = [] →
      get_foundation_model_endpoint services model_name
        = .error (.valueError ("Foundation model '" ++ model_name ++
            "' not found. No service with labels modelType,modelName=" ++
            model_name))) := by
  constructor
  · intro svc rest h
    unfold get_foundation_model_endpoint
    rw [h]
  · intro h
    unfold get_foundation_model_endpoint
    rw [h]

/-- C9 witness: the `llama` service in `models` resolves to its
cluster-local DNS name. -/
theorem c9_model_endpoint_witness :
    servicesC9.filter (matches_model_selector "llama")
      = [{ name := "llama-svc", service_namespace := "models",
           labels := [("modelType", "llm"), ("modelName", "llama")] }]
    ∧ get_foundation_model_endpoint servicesC9 "llama"
      = .ok ("llama-svc" ++ "." ++ "models" ++ ".svc.cluster.local") :=
  ⟨by decide,
    (c9_model_endpoint servicesC9 "llama").1
      { name := "llama-svc", service_namespace := "models",
        labels := [("modelType", "llm"), ("modelName", "llama")] } []
      (by decide)⟩

end C9

section C10

open KbPipelines

/-- C10: `_load_config` returns the ConfigMap data on a successful read and
the empty mapping on a 404; for every other `ApiException` the handler
suppresses the caught exception and the function fails with the
unbound-local reference to `configmap` — the original cluster error and its
HTTP status never reach the caller. -/
theorem c10_load_config_suppression (e : ApiException)
    (data : Option (List (String × String))) :
    (e.status ≠ 404 → load_config (.error e) = .unboundLocalError)
    ∧ (e.status = 404 → load_config (.error e) = .ok [])
    ∧ load_config (.ok data) = .ok (data.getD []) := by
  refine ⟨?_, ?_, rfl⟩
  · intro h
    simp [load_config, h]
  · intro h
    simp [load_config, h]

/-- C10 witness: a 500 from the ConfigMap read ends in the unbound-local
failure, not a re-raise. -/
theorem c10_load_config_suppression_witness :
    (⟨500⟩ : ApiException).status ≠ 404
    ∧ load_config (.error ⟨500⟩) = .unboundLocalError :=
  ⟨by decide, (c10_load_config_suppression ⟨500⟩ none).1 (by decide)⟩

end C10

section C3

open Py AgentOperator

/-- C3: evaluation at the claim's scenario.  The cluster holds the knowledge
base under `("team-a", "my-kb")`, yet `create_agent_data` fails: the tool
name is sanitized to `my_kb` *before* being used as the lookup key (line 32
precedes line 35 of `model/agent_data.py`), so the fetch targets `my_kb`,
finds nothing, and the `ValueError` aborts the build — no tool entry with an
embedded config is produced. -/
theorem c3_sanitized_name_lookup :
    getKey ("team-a", "my-kb") kbClusterC3
      = some ⟨"emb", [("x", JVal.n 1)]⟩
    ∧ create_agent_data kbClusterC3 servicesC9 "team-a" "agent1" agentC3
      = .error (.valueError
          "Knowledge base 'my_kb' not found in namespace 'team-a'") := by
  constructor
  · rfl
  · rfl

end C3

section C6

open Py KbPipelines

theorem resolve_entry_good (secrets : List (String × List (String × String)))
    (sc : StoredPipelineSourceConfig) (v : PipelineSourceConfig)
    (h : resolve_entry secrets sc = some v) : goodEntry v := by
  unfold resolve_entry at h
  split at h
  next hcond =>
    rw [Option.some.injEq] at h
    subst h
    intro hne
    exact absurd hcond hne
  next hcond =>
    split at h
    next sn sk =>
      split at h
      next => exact absurd h (by simp)
      next =>
        split at h
        next secret hsecret =>
          split at h
          next => exact absurd h (by simp)
          next =>
            split at h
            next secret_value hvalue =>
              split at h
              next => exact absurd h (by simp)
              next hval =>
                rw [Option.some.injEq] at h
                subst h
                intro _
                exact ⟨secret_value, rfl, hval⟩
            next => exact absurd h (by simp)
        next => exact absurd h (by simp)
    next => exact absurd h (by simp)

theorem apply_updates_cons (secrets : List (String × List (String × String)))
    (e : String × StoredPipelineSourceConfig)
    (rest : List (String × StoredPipelineSourceConfig)) (cfg : Snapshot) :
    apply_updates secrets (e :: rest) cfg
      = apply_updates secrets rest
          (match resolve_entry secrets e.2 with
           | some v => setKey e.1 v cfg
           | Option.none => cfg) := rfl

theorem apply_updates_not_mem (secrets : List (String × List (String × String))) :
    ∀ (updated : List (String × StoredPipelineSourceConfig)) (cfg : Snapshot)
      (n : String), n ∉ updated.map Prod.fst →
      getKey n (apply_updates secrets updated cfg) = getKey n cfg := by
  intro updated
  induction updated with
  | nil => intro cfg n _; rfl
  | cons e rest ih =>
    intro cfg n h
    simp only [List.map_cons, List.mem_cons] at h
    push_neg at h
    rw [apply_updates_cons]
    cases hres : resolve_entry secrets e.2 with
    | none =>
      show getKey n (apply_updates secrets rest cfg) = getKey n cfg
      exact ih cfg n h.2
    | some v =>
      show getKey n (apply_updates secrets rest (setKey e.1 v cfg)) = getKey n cfg
      rw [ih _ n h.2]
      exact getKey_setKey_ne v cfg h.1

theorem apply_updates_skip (secrets : List (String × List (String × String))) :
    ∀ (updated : List (String × StoredPipelineSourceConfig)) (cfg : Snapshot)
      (n : String) (sc : StoredPipelineSourceConfig),
      (updated.map Prod.fst).Nodup →
      (n, sc) ∈ updated → resolve_entry secrets sc = Option.none →
      getKey n (apply_updates secrets updated cfg) = getKey n cfg := by
  intro updated
  induction updated with
  | nil => intro cfg n sc _ hmem _; simp at hmem
  | cons e rest ih =>
    obtain ⟨m, d⟩ := e
    intro cfg n sc hnd hmem hres
    simp only [List.map_cons, List.nodup_cons] at hnd
    rcases List.mem_cons.mp hmem with h1 | h1
    · rw [Prod.mk.injEq] at h1
      obtain ⟨rfl, rfl⟩ := h1
      rw [apply_updates_cons]
      cases hres2 : resolve_entry secrets sc with
      | none =>
        show getKey n (apply_updates secrets rest cfg) = getKey n cfg
        exact apply_updates_not_mem secrets rest cfg n hnd.1
      | some v => exact absurd hres2 (by rw [hres]; simp)
    · have hn_ne : n ≠ m := by
        intro heq
        apply hnd.1
        rw [← heq]
        exact List.mem_map_of_mem Prod.fst h1
      rw [apply_updates_cons]
      cases hres2 : resolve_entry secrets d with
      | none =>
        show getKey n (apply_updates secrets rest cfg) = getKey n cfg
        exact ih cfg n sc hnd.2 h1 hres
      | some v =>
        show getKey n (apply_updates secrets rest (setKey m v cfg)) = getKey n cfg
        rw [ih _ n sc hnd.2 h1 hres]
        exact getKey_setKey_ne v cfg hn_ne

theorem apply_updates_good (secrets : List (String × List (String × String))) :
    ∀ (updated : List (String × StoredPipelineSourceConfig)) (cfg : Snapshot),
      (∀ n v, getKey n cfg = some v → goodEntry v) →
      ∀ n v, getKey n (apply_updates secrets updated cfg) = some v → goodEntry v := by
  intro updated
  induction updated with
  | nil => intro cfg hgood n v h; exact hgood n v h
  | cons e rest ih =>
    intro cfg hgood n v h
    rw [apply_updates_cons] at h
    cases hres : resolve_entry secrets e.2 with
    | none =>
      rw [hres] at h
      exact ih cfg hgood n v h
    | some w =>
      rw [hres] at h
      refine ih (setKey e.1 w cfg) ?_ n v h
      intro n1 v1 h1
      by_cases hn : n1 = e.1
      · subst hn
        rw [getKey_setKey_self] at h1
        rw [Option.some.injEq] at h1
        subst h1
        exact resolve_entry_good secrets e.2 _ hres
      · rw [getKey_setKey_ne w cfg hn] at h1
        exact hgood n1 v1 h1

theorem parsed_keys_sublist
    (cm_data : List (String × Option StoredPipelineSourceConfig)) :
    ((cm_data.filterMap (fun e => e.2.map (fun sc => (e.1, sc)))).map
        Prod.fst).Sublist (cm_data.map Prod.fst) := by
  induction cm_data with
  | nil => simp
  | cons e rest ih =>
    obtain ⟨n, o⟩ := e
    cases o with
    | none =>
      simp only [List.filterMap_cons, Option.map_none', List.map_cons]
      exact ih.cons n
    | some sc =>
      simp only [List.filterMap_cons, Option.map_some', List.map_cons]
      exact ih.cons₂ n

theorem mem_parsed_iff (cm_data : List (String × Option StoredPipelineSourceConfig))
    (n : String) (sc : StoredPipelineSourceConfig) :
    (n, sc) ∈ cm_data.filterMap (fun e => e.2.map (fun s => (e.1, s)))
      ↔ (n, some sc) ∈ cm_data := by
  rw [List.mem_filterMap]
  constructor
  · rintro ⟨⟨m, o⟩, hmem, heq⟩
    cases o with
    | none => simp at heq
    | some x =>
      simp only [Option.map_some', Option.some.injEq, Prod.mk.injEq] at heq
      obtain ⟨rfl, rfl⟩ := heq
      exact hmem
  · intro hmem
    exact ⟨(n, some sc), hmem, rfl⟩

theorem malformed_not_in_parsed_keys
    (cm_data : List (String × Option StoredPipelineSourceConfig)) (n : String)
    (hnd : (cm_data.map Prod.fst).Nodup)
    (hmem : (n, (Option.none : Option StoredPipelineSourceConfig)) ∈ cm_data) :
    n ∉ (cm_data.filterMap (fun e => e.2.map (fun s => (e.1, s)))).map Prod.fst := by
  intro hin
  rw [List.mem_map] at hin
  obtain ⟨⟨m, sc⟩, hmem2, hfst⟩ := hin
  simp only at hfst
  subst hfst
  rw [mem_parsed_iff] at hmem2
  have := keys_nodup_getKey_unique hnd hmem hmem2
  simp at this

/-- C6: after an `update_config` pass, (a) every snapshot entry with
`auth_kind ≠ none` holds a non-empty resolved token (given the invariant held
before the pass); (b) an entry whose ConfigMap value fails to parse, or whose
secret resolution fails, keeps its previous snapshot value; (c) every key of
the prior snapshot absent from the fresh `pipelines` ConfigMap is removed,
even when its secret is unavailable. -/
theorem c6_snapshot_invariants (cluster : ClusterSecrets)
    (cm_data : List (String × Option StoredPipelineSourceConfig))
    (current : Snapshot)
    (hkeys : (cm_data.map Prod.fst).Nodup)
    (hgood : ∀ n v, getKey n current = some v → goodEntry v) :
    (∀ n v, getKey n (update_config cluster cm_data current) = some v → goodEntry v)
    ∧ (∀ n, getKey n cm_data = some Option.none →
        getKey n (update_config cluster cm_data current) = getKey n current)
    ∧ (∀ n sc, getKey n cm_data = some (some sc) →
        resolve_entry (effective_secrets cluster cm_data) sc = Option.none →
        getKey n (update_config cluster cm_data current) = getKey n current)
    ∧ (∀ n, n ∉ cm_data.map Prod.fst →
        getKey n (update_config cluster cm_data current) = Option.none) := by
  have hq : ∀ n, getKey n (update_config cluster cm_data current)
      = if n ∈ cm_data.map Prod.fst
        then getKey n (apply_updates (effective_secrets cluster cm_data)
            (cm_data.filterMap (fun e => e.2.map (fun sc => (e.1, sc)))) current)
        else none := by
    intro n
    have h := getKey_filter_pred (fun k => decide (k ∈ cm_data.map Prod.fst)) n
      (apply_updates (effective_secrets cluster cm_data)
        (cm_data.filterMap (fun e => e.2.map (fun sc => (e.1, sc)))) current)
    simp only [decide_eq_true_eq] at h
    exact h
  refine ⟨?_, ?_, ?_, ?_⟩
  · intro n v h
    rw [hq n] at h
    by_cases hmem : n ∈ cm_data.map Prod.fst
    · rw [if_pos hmem] at h
      exact apply_updates_good _ _ current hgood n v h
    · rw [if_neg hmem] at h
      exact absurd h (by simp)
  · intro n hparse
    have hmem := mem_of_getKey_some hparse
    have hnk : n ∈ cm_data.map Prod.fst := List.mem_map_of_mem Prod.fst hmem
    rw [hq n, if_pos hnk]
    exact apply_updates_not_mem _ _ current n
      (malformed_not_in_parsed_keys cm_data n hkeys hmem)
  · intro n sc hparse hres
    have hmem := mem_of_getKey_some hparse
    have hnk : n ∈ cm_data.map Prod.fst := List.mem_map_of_mem Prod.fst hmem
    have hmemu : (n, sc) ∈ cm_data.filterMap (fun e => e.2.map (fun s => (e.1, s))) :=
      (mem_parsed_iff cm_data n sc).mpr hmem
    rw [hq n, if_pos hnk]
    exact apply_updates_skip _ _ current n sc
      ((parsed_keys_sublist cm_data).nodup hkeys) hmemu hres
  · intro n hnot
    rw [hq n, if_neg hnot]

/-- C6 witness: a ConfigMap with one resolvable bearer entry and one
malformed entry, over an empty prior snapshot; a key absent from the
ConfigMap is absent from the new snapshot. -/
theorem c6_snapshot_invariants_witness :
    (([("a", some (⟨"u", Option.none, .bearer, some "s", some "k"⟩ :
          StoredPipelineSourceConfig)), ("bad", Option.none)].map Prod.fst).Nodup)
    ∧ getKey "gone"
        (update_config [("s", [("k", "tok")])]
          [("a", some ⟨"u", Option.none, .bearer, some "s", some "k"⟩),
           ("bad", Option.none)] []) = Option.none :=
  ⟨by decide,
    (c6_snapshot_invariants [("s", [("k", "tok")])]
      [("a", some ⟨"u", Option.none, .bearer, some "s", some "k"⟩),
       ("bad", Option.none)] [] (by decide)
      (by intro n v h; simp [Py.getKey] at h)).2.2.2 "gone" (by decide)⟩

end C6
